import Mathlib

/-!
Shallow embedding of the zksync-telemetry TypeScript client
(src/telemetry.ts, src/config.ts, src/utils.ts, src/types.ts, src/constants.ts).

Values that cross the `Record<string, any>` / JSON boundary are modelled by a
two-level type: primitive values `JPrim` and flat objects `Json` (every record
the library itself builds is flat, and caller-supplied values are treated
opaquely by the code, so one level of structure is enough); JS `undefined` is
modelled by `Option` where it can be observed.  Every operation of the library
is a pure function of an explicit environment (`Env`) describing the external
world for that one call: filesystem outcomes, terminal interactivity, the
user's prompt answer, the generated UUID, and whether each backend-SDK call
succeeds.  Each operation returns its TS result (with `Except` as the
exception channel), the new client state, and a trace of the externally
observable actions it performed, in order.
-/

/-- Primitive JSON-like runtime values. -/
inductive JPrim where
  | null
  | bool (b : Bool)
  | num (n : Int)
  | str (s : String)
deriving BEq, DecidableEq

/-- A JSON-like runtime value: a primitive or a (flat) object. -/
inductive Json where
  | prim (p : JPrim)
  | obj (fields : List (String × JPrim))
deriving BEq, DecidableEq

/-- Model of a JS `Record<string, any>` as an ordered field list. -/
abbrev JsRecord := List (String × JPrim)

/-- JS property access `j[key]`: defined on objects, `undefined` (`none`) elsewhere. -/
def Json.getField : Json → String → Option JPrim
  | .obj fields, key => (fields.find? (fun p => p.1 == key)).map (fun p => p.2)
  | _, _ => none

/-- JavaScript truthiness of a primitive value. -/
def JPrim.truthy : JPrim → Bool
  | .null => false
  | .bool b => b
  | .num n => n != 0
  | .str s => s != ""

/-- Truthiness of a possibly-`undefined` value (`none` is JS `undefined`). -/
def truthyOpt : Option JPrim → Bool
  | none => false
  | some p => p.truthy

/-- Rendering used where the code reads a config field as a string. -/
def JPrim.asString : JPrim → String
  | .str s => s
  | _ => ""

/-- Effect of writing key `k` on a JS object built from `fields`: an existing
binding keeps its position and gets the new value, otherwise the binding is
appended (object-literal spread-then-override semantics). -/
def setField (fields : JsRecord) (k : String) (v : JPrim) : JsRecord :=
  if fields.any (fun p => p.1 == k) then
    fields.map (fun p => if p.1 == k then (k, v) else p)
  else
    fields ++ [(k, v)]

/-- Assignment `j.k = v` on a config object (`config.enabled = enabled`). -/
def Json.setProp : Json → String → JPrim → Json
  | .obj fields, k, v => .obj (setField fields k v)
  | j, _, _ => j

/-- JS `undefined` collapsed to `null` where a value is stored into a payload. -/
def primOrNull (o : Option JPrim) : JPrim := o.getD .null

/-- Errors that can propagate out of the library on the TS exception channel. -/
inductive TSError where
  /-- The `TelemetryError` class of types.ts: message plus machine-readable code. -/
  | telemetryError (message : String) (code : String)
  /-- A raw rejection from the `fs` promises API, not wrapped by the library. -/
  | fsError (message : String)
deriving BEq, DecidableEq

/-- Outcome of the `fs.access` / `fs.readFile` / `JSON.parse` sequence that
`ConfigManager.load` runs against the resolved config path. -/
inductive ReadOutcome where
  | accessError
  | readError
  | parseError
  | parsed (j : Json)
deriving BEq, DecidableEq

/-- Does the read sequence produce a parsed value? -/
def ReadOutcome.parses : ReadOutcome → Bool
  | .parsed _ => true
  | _ => false

/-- Process-level environment probed by the code (tty state, env vars,
platform, versions, home directory). -/
structure ProcEnv where
  stdinTty : Bool
  stdoutTty : Bool
  envCI : Bool
  envContinuousIntegration : Bool
  envBuildNumber : Bool
  envGithubActions : Bool
  platform : String
  npmPackageVersion : Option String
  nodeVersion : String
  home : String
deriving DecidableEq

/-- Filesystem and console world for one operation. -/
structure FsEnv where
  readResult : ReadOutcome
  writeOk : Bool
  writeErrMsg : String
  promptAnswer : String
  freshUuid : String
  now : String
deriving DecidableEq

/-- Behaviour of the two backend SDKs during one operation. -/
structure BackendEnv where
  posthogCtorOk : Bool
  sentryInitOk : Bool
  captureOk : Bool
  captureErrMsg : String
deriving DecidableEq

/-- The complete external environment of one library call. -/
structure Env where
  proc : ProcEnv
  fs : FsEnv
  backend : BackendEnv
deriving DecidableEq

/-- Externally observable actions, recorded in order. -/
inductive Act where
  | posthogConnect
  | sentryInit
  | posthogCapture (distinctId : Option JPrim) (event : String) (properties : JsRecord)
  | sentrySubmit (extras : JsRecord)
  | posthogShutdown
  | sentryClose
  | fsWrite (path : String) (content : Json)
  | consoleError (msg : String)
deriving BEq, DecidableEq

/-- utils.ts `isCiEnvironment`: any of the four CI indicator variables is truthy. -/
def isCiEnvironment (p : ProcEnv) : Bool :=
  p.envCI || p.envContinuousIntegration || p.envBuildNumber || p.envGithubActions

/-- utils.ts `isInteractive`: both stdio streams are ttys and no CI indicator. -/
def isInteractive (p : ProcEnv) : Bool :=
  p.stdinTty && p.stdoutTty && !isCiEnvironment p

/-- utils.ts `promptYesNo`: the answer line, lowercased, starts with "y". -/
def promptYesNo (answer : String) : Bool :=
  match answer.data.map Char.toLower with
  | [] => false
  | c :: _ => c == 'y'

namespace ConfigManager

/-- config.ts `getDefaultConfigPath`. -/
def getDefaultConfigPath (p : ProcEnv) (appName : String) : String :=
  if p.platform == "darwin" then
    p.home ++ "/Library/Application Support/com.matter-labs/" ++ appName ++ "/telemetry.json"
  else
    p.home ++ "/.config/" ++ appName ++ "/telemetry.json"

/-- The `TelemetryConfig` object literal built inside `createNew`. -/
def newConfig (enabled : Bool) (uuid now configPath : String) : Json :=
  .obj [("enabled", .bool enabled), ("instanceId", .str uuid),
        ("createdAt", .str now), ("configPath", .str configPath)]

/-- config.ts `createNew`: non-interactive mode returns a disabled, unpersisted
config; interactive mode prompts, then persists the record, wrapping a write
failure into a CONFIG_SAVE_ERROR `TelemetryError`. -/
def createNew (env : Env) (configPath : String) :
    Except TSError Json × List Act :=
  if !isInteractive env.proc then
    (.ok (newConfig false env.fs.freshUuid env.fs.now configPath), [])
  else
    let enabled := promptYesNo env.fs.promptAnswer
    let config := newConfig enabled env.fs.freshUuid env.fs.now configPath
    if env.fs.writeOk then
      (.ok config, [.fsWrite configPath config])
    else
      (.error (.telemetryError ("Failed to save config: " ++ env.fs.writeErrMsg)
        "CONFIG_SAVE_ERROR"), [])

/-- config.ts `load`: resolves the path, tries access/read/parse, and on any
failure there falls into the catch block, which calls `createNew` (whose own
exception is not caught by this try). A successful parse is returned as-is. -/
def load (env : Env) (appName : String) (customPath : Option String) :
    Except TSError Json × List Act :=
  let configPath := customPath.getD (getDefaultConfigPath env.proc appName)
  match env.fs.readResult with
  | .parsed j => (.ok j, [])
  | _ => createNew env configPath

/-- config.ts `updateConsent`: throws CONFIG_PATH_ERROR when `config.configPath`
is falsy, before any mutation; otherwise mutates `enabled` in the record and
rewrites the file. The (possibly mutated) in-memory record is returned in every
case, since TS mutates the shared object in place. -/
def updateConsent (env : Env) (config : Json) (enabled : Bool) :
    Except TSError Unit × Json × List Act :=
  if !truthyOpt (config.getField "configPath") then
    (.error (.telemetryError "No config path specified" "CONFIG_PATH_ERROR"), config, [])
  else
    let config2 := config.setProp "enabled" (.bool enabled)
    if env.fs.writeOk then
      (.ok (), config2,
        [.fsWrite (primOrNull (config.getField "configPath")).asString config2])
    else
      (.error (.fsError env.fs.writeErrMsg), config2, [])

end ConfigManager

/-- telemetry.ts client state: the owned config, whether `posthog` currently
holds a client, the `sentryInitialized` flag, and the app name. -/
structure Telemetry where
  config : Json
  posthog : Bool
  sentryInitialized : Bool
  appName : String
deriving DecidableEq

/-- The truthiness test `this.config.enabled` used to gate every operation. -/
def cfgEnabled (config : Json) : Bool := truthyOpt (config.getField "enabled")

/-- The `this.config.instanceId` read (possibly `undefined`). -/
def cfgInstanceId (config : Json) : Option JPrim := config.getField "instanceId"

namespace Telemetry

/-- telemetry.ts `reconnectPostHog`: when enabled and no client is held,
construct a new PostHog client; a constructor throw is caught and logged. -/
def reconnectPostHog (env : Env) (t : Telemetry) : Telemetry × List Act :=
  if cfgEnabled t.config && !t.posthog then
    if env.backend.posthogCtorOk then
      ({ t with posthog := true }, [.posthogConnect])
    else
      (t, [.posthogConnect, .consoleError "Failed to reconnect to PostHog"])
  else (t, [])

/-- telemetry.ts `reconnectSentry`: when enabled and not yet initialized, run
`Sentry.init`; a throw is caught and logged. The body contains no `await`, so
it completes synchronously before the caller's next statement. -/
def reconnectSentry (env : Env) (t : Telemetry) : Telemetry × List Act :=
  if cfgEnabled t.config && !t.sentryInitialized then
    if env.backend.sentryInitOk then
      ({ t with sentryInitialized := true }, [.sentryInit])
    else
      (t, [.sentryInit, .consoleError "Failed to reconnect to Sentry"])
  else (t, [])

/-- telemetry.ts `initialize`: load the config (an exception from the load /
creation path propagates to the caller); when enabled, attempt both backend
connections independently, each failure caught and logged; when disabled,
return a client holding only the config. -/
def initializeTelemetry (env : Env) (appName : String) (customConfigPath : Option String) :
    Except TSError Telemetry × List Act :=
  match ConfigManager.load env appName customConfigPath with
  | (.error e, tr) => (.error e, tr)
  | (.ok config, tr) =>
    if cfgEnabled config then
      let posthogClient := env.backend.posthogCtorOk
      let sentryOk := env.backend.sentryInitOk
      let tr1 := if posthogClient then [Act.posthogConnect]
        else [Act.posthogConnect, Act.consoleError "Failed to initialize PostHog"]
      let tr2 := if sentryOk then [Act.sentryInit]
        else [Act.sentryInit, Act.consoleError "Failed to initialize Sentry"]
      (.ok ⟨config, posthogClient, sentryOk, appName⟩, tr ++ tr1 ++ tr2)
    else
      (.ok ⟨config, false, false, appName⟩, tr)

/-- telemetry.ts `trackEvent`: no-op when disabled; one reconnection attempt
when the PostHog client is absent, silently returning if still absent; then
spreads the caller's properties under the enrichment keys and dispatches; a
capture failure is rethrown as an EVENT_TRACKING_ERROR `TelemetryError`. -/
def trackEvent (env : Env) (t : Telemetry) (eventName : String)
    (properties : JsRecord) : Except TSError Unit × Telemetry × List Act :=
  if !cfgEnabled t.config then (.ok (), t, [])
  else
    let t1 := if !t.posthog then (reconnectPostHog env t).1 else t
    let tr1 := if !t.posthog then (reconnectPostHog env t).2 else []
    if !t1.posthog then (.ok (), t1, tr1)
    else
      let enriched :=
        setField (setField (setField (setField properties
          "distinct_id" (primOrNull (cfgInstanceId t1.config)))
          "platform" (.str env.proc.platform))
          "version" (.str (env.proc.npmPackageVersion.getD "unknown")))
          "node_version" (.str env.proc.nodeVersion)
      let capture := Act.posthogCapture (cfgInstanceId t1.config) eventName enriched
      if env.backend.captureOk then
        (.ok (), t1, tr1 ++ [capture])
      else
        (.error (.telemetryError ("Failed to track event: " ++ env.backend.captureErrMsg)
          "EVENT_TRACKING_ERROR"), t1, tr1 ++ [capture])

/-- telemetry.ts `trackError`: no-op when disabled; when Sentry is not
initialized, triggers `reconnectSentry` (which completes synchronously, having
no internal `await`, and never rejects since its body catches) and returns
without sending if still uninitialized; otherwise attaches the extras and
submits. `Sentry.withScope` / `captureException` hand the event to the SDK,
which reports delivery failures asynchronously and never throws into this
caller, so the submission has no failing branch here. -/
def trackError (env : Env) (t : Telemetry) (context : JsRecord) :
    Except TSError Unit × Telemetry × List Act :=
  if !cfgEnabled t.config then (.ok (), t, [])
  else
    let t1 := if !t.sentryInitialized then (reconnectSentry env t).1 else t
    let tr1 := if !t.sentryInitialized then (reconnectSentry env t).2 else []
    if !t1.sentryInitialized then (.ok (), t1, tr1)
    else
      let extras :=
        setField (setField (setField context
          "platform" (.str env.proc.platform))
          "version" (primOrNull ((env.proc.npmPackageVersion).map JPrim.str)))
          "instanceId" (primOrNull (cfgInstanceId t1.config))
      (.ok (), t1, tr1 ++ [Act.sentrySubmit extras])

/-- telemetry.ts `updateConsent`: delegates to `ConfigManager.updateConsent`
(whose exception propagates, leaving the client with whatever in-memory config
mutation already happened), then sets the in-memory flag, and on enabling runs
both reconnection attempts. -/
def updateConsent (env : Env) (t : Telemetry) (enabled : Bool) :
    Except TSError Unit × Telemetry × List Act :=
  let r := ConfigManager.updateConsent env t.config enabled
  match r.1 with
  | .error e => (.error e, { t with config := r.2.1 }, r.2.2)
  | .ok _ =>
    let t1 := { t with config := (r.2.1).setProp "enabled" (.bool enabled) }
    if enabled then
      let t2 := (reconnectPostHog env t1).1
      let t3 := (reconnectSentry env t2).1
      (.ok (), t3, r.2.2 ++ (reconnectPostHog env t1).2 ++ (reconnectSentry env t2).2)
    else
      (.ok (), t1, r.2.2)

/-- telemetry.ts `shutdown`: flush/close each held connector and clear its
handle. The two close calls (`posthog.shutdown()`, `Sentry.close(2000)`) are
modelled as completing normally: both SDK calls resolve (Sentry.close resolves
a boolean on timeout rather than rejecting) and the code has no failure
handling around them. -/
def shutdown (t : Telemetry) : Telemetry × List Act :=
  let t1 := if t.posthog then { t with posthog := false } else t
  let tr1 : List Act := if t.posthog then [Act.posthogShutdown] else []
  let t2 := if t1.sentryInitialized then { t1 with sentryInitialized := false } else t1
  let tr2 : List Act := if t1.sentryInitialized then [Act.sentryClose] else []
  (t2, tr1 ++ tr2)

end Telemetry

/-- Does the character list `sub` occur as a contiguous run inside `s`? -/
def containsSubL (s sub : List Char) : Bool :=
  match s with
  | [] => sub.isEmpty
  | _ :: rest => sub.isPrefixOf s || containsSubL rest sub

/-- The characters of a string, lowercased. -/
def lowerChars (s : String) : List Char := s.data.map Char.toLower

/-- Case-insensitive substring occurrence on strings. -/
def containsSub (s sub : String) : Bool :=
  containsSubL (lowerChars s) (lowerChars sub)

/-- Modelled from the spec: a property key is sensitive when its lowercase form
contains one of the substrings "key", "password", "token". No such predicate
exists anywhere in the source. -/
def isSensitiveKey (k : String) : Bool :=
  containsSub k "key" || containsSub k "password" || containsSub k "token"

/-- Modelled from the spec: `sanitize` keeps exactly the entries whose key is
not sensitive. No such function exists anywhere in the source. -/
def sanitize (properties : JsRecord) : JsRecord :=
  properties.filter (fun p => !isSensitiveKey p.1)

/-- The property mappings of the analytics dispatches within a trace. -/
def capturedProperties : List Act → List JsRecord
  | [] => []
  | .posthogCapture _ _ props :: rest => props :: capturedProperties rest
  | _ :: rest => capturedProperties rest

/-- The extras mappings of the error-report submissions within a trace. -/
def submittedExtras : List Act → List JsRecord
  | [] => []
  | .sentrySubmit extras :: rest => extras :: submittedExtras rest
  | _ :: rest => submittedExtras rest

/-- Is this action an analytics (re)connection attempt? -/
def Act.isPosthogConnect : Act → Bool
  | .posthogConnect => true
  | _ => false

/-- The number of analytics (re)connection attempts within a trace. -/
def posthogConnectCount (tr : List Act) : Nat :=
  (tr.filter Act.isPosthogConnect).length

/-- The machine-readable code of an operation outcome: `none` for success. -/
def resultCode {α : Type} : Except TSError α → Option String
  | .ok _ => none
  | .error (.telemetryError _ c) => some c
  | .error (.fsError _) => some "FS_ERROR"

/-- A process environment for concrete runs: interactive terminal, no CI. -/
def sampleProc : ProcEnv :=
  ⟨true, true, false, false, false, false, "linux", some "1.0.0", "v20.0.0", "/home/u"⟩

/-- An all-succeeding environment for concrete runs. -/
def sampleEnv : Env :=
  ⟨sampleProc, ⟨.parsed (Json.obj []), true, "EACCES", "y", "uuid-0", "t0"⟩,
   ⟨true, true, true, "network down"⟩⟩

/-- A well-formed config record as the code itself would create it. -/
def sampleConfig (enabled : Bool) : Json :=
  ConfigManager.newConfig enabled "uuid-0" "t0" "/home/u/.config/app/telemetry.json"

/-- An enabled client holding both connector handles. -/
def connectedClient : Telemetry := ⟨sampleConfig true, true, true, "app"⟩

/-- An enabled client holding neither connector handle. -/
def disconnectedClient : Telemetry := ⟨sampleConfig true, false, false, "app"⟩

/-- A client whose config record has no `configPath` field. -/
def noPathClient : Telemetry := ⟨Json.obj [("enabled", JPrim.bool true)], false, false, "app"⟩

/-- First run (no file on disk), interactive, but the config write fails. -/
def envSaveFail : Env :=
  { sampleEnv with fs := { sampleEnv.fs with readResult := .accessError, writeOk := false } }

/-- Environment in which the analytics dispatch fails. -/
def envCaptureFail : Env :=
  { sampleEnv with backend := { sampleEnv.backend with captureOk := false } }

/-- Environment in which constructing the analytics client fails. -/
def envCtorFail : Env :=
  { sampleEnv with backend := { sampleEnv.backend with posthogCtorOk := false } }

/-- Environment whose config file parses to a bare number (not a record). -/
def envParsedNum : Env :=
  { sampleEnv with fs := { sampleEnv.fs with readResult := .parsed (Json.prim (.num 5)) } }

/-! ## Helper lemmas -/

/-- The config record built by `createNew` is enabled exactly as requested. -/
theorem cfgEnabled_newConfig (e : Bool) (u n p : String) :
    cfgEnabled (ConfigManager.newConfig e u n p) = e := rfl

/-- trackError returns normally on every input and in every environment. -/
theorem trackError_ok (env : Env) (t : Telemetry) (ctx : JsRecord) :
    (Telemetry.trackError env t ctx).1 = .ok () := by
  cases h1 : cfgEnabled t.config <;> cases h2 : t.sentryInitialized <;>
    cases h3 : env.backend.sentryInitOk <;>
      simp [Telemetry.trackError, Telemetry.reconnectSentry, h1, h2, h3]

/-- The outcome code of `initialize` depends only on the filesystem and process
environment: success unless the first-run record had to be written and the
write failed, in which case CONFIG_SAVE_ERROR. -/
theorem resultCode_initTelemetry (env : Env) (appName : String) (cp : Option String) :
    resultCode (Telemetry.initializeTelemetry env appName cp).1 =
      (if env.fs.readResult.parses then none
       else if isInteractive env.proc && !env.fs.writeOk then some "CONFIG_SAVE_ERROR"
       else none) := by
  cases hr : env.fs.readResult <;>
    cases hi : isInteractive env.proc <;>
      cases hw : env.fs.writeOk <;>
        cases hpy : promptYesNo env.fs.promptAnswer <;>
          simp [Telemetry.initializeTelemetry, ConfigManager.load, ConfigManager.createNew,
            hr, hi, hw, hpy, ReadOutcome.parses, cfgEnabled_newConfig] <;>
          first
            | rfl
            | (split <;> rfl)

/-- The outcome code of `updateConsent` depends only on the config path and the
filesystem: CONFIG_PATH_ERROR for a falsy path, the raw fs rejection when the
rewrite fails, success otherwise. -/
theorem resultCode_updateConsent (env : Env) (t : Telemetry) (e : Bool) :
    resultCode (Telemetry.updateConsent env t e).1 =
      (if truthyOpt (t.config.getField "configPath") then
        (if env.fs.writeOk then none else some "FS_ERROR")
       else some "CONFIG_PATH_ERROR") := by
  cases ht : truthyOpt (t.config.getField "configPath") <;>
    cases hw : env.fs.writeOk <;> cases e <;>
      simp [Telemetry.updateConsent, ConfigManager.updateConsent, ht, hw, resultCode]

/-! ## Claims -/

/-- C6: for every input, trackError never raises an error to its caller —
whether the client is disabled, the error-reporting connector is disconnected,
or reconnection fails, control returns to the caller normally. -/
theorem c6_trackError_never_raises (env : Env) (t : Telemetry) (ctx : JsRecord) :
    (Telemetry.trackError env t ctx).1 = .ok () :=
  trackError_ok env t ctx

/-- C8: shutdown is idempotent — after one shutdown both connector handles are
released, so a second shutdown returns the same state, performs no further
close/flush calls, and (the close calls being non-failing) produces no error. -/
theorem c8_shutdown_idempotent (t : Telemetry) :
    Telemetry.shutdown (Telemetry.shutdown t).1 = ((Telemetry.shutdown t).1, []) := by
  cases hp : t.posthog <;> cases hs : t.sentryInitialized <;>
    simp [Telemetry.shutdown, hp, hs]

/-- C9: when the config record has no configPath, updateConsent raises
CONFIG_PATH_ERROR and the client state (config included) is exactly as before
the call. -/
theorem c9_updateConsent_path_error_atomic (env : Env) (t : Telemetry) (e : Bool)
    (h : t.config.getField "configPath" = none) :
    (Telemetry.updateConsent env t e).1 =
      .error (.telemetryError "No config path specified" "CONFIG_PATH_ERROR") ∧
    (Telemetry.updateConsent env t e).2.1 = t := by
  simp [Telemetry.updateConsent, ConfigManager.updateConsent, h, truthyOpt]

/-- C9 witness: a concrete client whose config lacks configPath. -/
theorem c9_witness :
    noPathClient.config.getField "configPath" = none ∧
    ((Telemetry.updateConsent sampleEnv noPathClient true).1 =
      .error (.telemetryError "No config path specified" "CONFIG_PATH_ERROR") ∧
    (Telemetry.updateConsent sampleEnv noPathClient true).2.1 = noPathClient) :=
  ⟨by decide, c9_updateConsent_path_error_atomic sampleEnv noPathClient true (by decide)⟩

/-- C10: a successfully parsed config file is returned as-is by load, with no
validation of its shape — here quantified over every parsed value. -/
theorem c10_load_no_validation (env : Env) (appName : String) (customPath : Option String)
    (j : Json) (h : env.fs.readResult = .parsed j) :
    ConfigManager.load env appName customPath = (.ok j, []) := by
  simp [ConfigManager.load, h]

/-- C10 witness: a config file parsing to the bare number 5 is returned as the
config unchanged. -/
theorem c10_witness :
    envParsedNum.fs.readResult = .parsed (Json.prim (.num 5)) ∧
    ConfigManager.load envParsedNum "app" none = (.ok (Json.prim (.num 5)), []) :=
  ⟨rfl, c10_load_no_validation envParsedNum "app" none (Json.prim (.num 5)) rfl⟩

/-- C7: if the config file is absent, unreadable or malformed, load proceeds
through the creation path at the resolved config path instead of raising. -/
theorem c7_load_never_propagates_read_failures (env : Env) (appName : String)
    (customPath : Option String)
    (h : env.fs.readResult = .accessError ∨ env.fs.readResult = .readError ∨
      env.fs.readResult = .parseError) :
    ConfigManager.load env appName customPath =
      ConfigManager.createNew env
        (customPath.getD (ConfigManager.getDefaultConfigPath env.proc appName)) := by
  rcases h with h | h | h <;> simp [ConfigManager.load, h]

/-- C7 witness: a corrupted config file leads into the creation path. -/
theorem c7_witness :
    envSaveFail.fs.readResult = .accessError ∧
    ConfigManager.load envSaveFail "app" none =
      ConfigManager.createNew envSaveFail
        ((none : Option String).getD
          (ConfigManager.getDefaultConfigPath envSaveFail.proc "app")) :=
  ⟨rfl, c7_load_never_propagates_read_failures envSaveFail "app" none (Or.inl rfl)⟩

/-- C5: trackEvent on an enabled client with no analytics handle makes exactly
one reconnection attempt; if the attempt fails, it returns without error, with
no dispatch and no state retained (the event is dropped, not queued). -/
theorem c5_single_reconnect_then_drop (env : Env) (t : Telemetry) (name : String)
    (props : JsRecord) (hen : cfgEnabled t.config = true) (hph : t.posthog = false) :
    posthogConnectCount (Telemetry.trackEvent env t name props).2.2 = 1 ∧
    (env.backend.posthogCtorOk = false →
      (Telemetry.trackEvent env t name props).1 = .ok () ∧
      capturedProperties (Telemetry.trackEvent env t name props).2.2 = [] ∧
      (Telemetry.trackEvent env t name props).2.1 = t) := by
  cases hc : env.backend.posthogCtorOk <;> cases hcap : env.backend.captureOk <;>
    simp [Telemetry.trackEvent, Telemetry.reconnectPostHog, hen, hph, hc, hcap,
      posthogConnectCount, capturedProperties, Act.isPosthogConnect]

/-- C5 witness: a disconnected enabled client in an environment where the
reconnection attempt fails. -/
theorem c5_witness :
    cfgEnabled disconnectedClient.config = true ∧
    disconnectedClient.posthog = false ∧
    envCtorFail.backend.posthogCtorOk = false ∧
    (posthogConnectCount (Telemetry.trackEvent envCtorFail disconnectedClient "e" []).2.2 = 1 ∧
      (envCtorFail.backend.posthogCtorOk = false →
        (Telemetry.trackEvent envCtorFail disconnectedClient "e" []).1 = .ok () ∧
        capturedProperties (Telemetry.trackEvent envCtorFail disconnectedClient "e" []).2.2 = [] ∧
        (Telemetry.trackEvent envCtorFail disconnectedClient "e" []).2.1 = disconnectedClient)) :=
  ⟨by decide, rfl, rfl,
    c5_single_reconnect_then_drop envCtorFail disconnectedClient "e" [] (by decide) rfl⟩

/-- C4: a dispatch failure on a connected, enabled client surfaces as a typed
EVENT_TRACKING_ERROR from trackEvent, and no other public operation propagates
a backend failure: trackError always returns normally, and the outcome of
initialize and updateConsent is unchanged under any change of backend
behaviour. -/
theorem c4_only_trackEvent_propagates (env : Env) (b2 : BackendEnv) (t : Telemetry)
    (name : String) (props ctx : JsRecord) (appName : String) (cp : Option String)
    (en : Bool) (hen : cfgEnabled t.config = true) (hph : t.posthog = true)
    (hfail : env.backend.captureOk = false) :
    (Telemetry.trackEvent env t name props).1 =
      .error (.telemetryError ("Failed to track event: " ++ env.backend.captureErrMsg)
        "EVENT_TRACKING_ERROR") ∧
    (Telemetry.trackError env t ctx).1 = .ok () ∧
    resultCode (Telemetry.initializeTelemetry env appName cp).1 =
      resultCode (Telemetry.initializeTelemetry { env with backend := b2 } appName cp).1 ∧
    resultCode (Telemetry.updateConsent env t en).1 =
      resultCode (Telemetry.updateConsent { env with backend := b2 } t en).1 := by
  refine ⟨?_, trackError_ok env t ctx, ?_, ?_⟩
  · simp [Telemetry.trackEvent, hen, hph, hfail]
  · simp [resultCode_initTelemetry]
  · simp [resultCode_updateConsent]

/-- C4 witness: a connected enabled client whose dispatch fails. -/
theorem c4_witness :
    cfgEnabled connectedClient.config = true ∧
    connectedClient.posthog = true ∧
    envCaptureFail.backend.captureOk = false ∧
    ((Telemetry.trackEvent envCaptureFail connectedClient "e" []).1 =
      .error (.telemetryError ("Failed to track event: " ++
        envCaptureFail.backend.captureErrMsg) "EVENT_TRACKING_ERROR") ∧
    (Telemetry.trackError envCaptureFail connectedClient []).1 = .ok () ∧
    resultCode (Telemetry.initializeTelemetry envCaptureFail "app" none).1 =
      resultCode (Telemetry.initializeTelemetry
        { envCaptureFail with backend := sampleEnv.backend } "app" none).1 ∧
    resultCode (Telemetry.updateConsent envCaptureFail connectedClient false).1 =
      resultCode (Telemetry.updateConsent
        { envCaptureFail with backend := sampleEnv.backend } connectedClient false).1) :=
  ⟨by decide, rfl, rfl,
    c4_only_trackEvent_propagates envCaptureFail sampleEnv.backend connectedClient
      "e" [] [] "app" none false (by decide) rfl rfl⟩

/-- C1: the code contradicts the claimed (and README-documented) sanitization —
on an enabled, connected client, a property whose key is sensitive under the
spec's own criterion ("api_key" lowercases to a string containing "key", so
spec-sanitize removes it) is forwarded verbatim inside the analytics capture
payload by trackEvent and inside the error-report extras by trackError. -/
theorem c1_sensitive_keys_reach_backend :
    ((capturedProperties (Telemetry.trackEvent sampleEnv connectedClient "wallet_connected"
        [("api_key", JPrim.str "secret0")]).2.2).any
      (fun props => props.any (fun p => p.1 == "api_key" && p.2 == JPrim.str "secret0"))
      = true) ∧
    ((submittedExtras (Telemetry.trackError sampleEnv connectedClient
        [("api_key", JPrim.str "secret0")]).2.2).any
      (fun extras => extras.any (fun p => p.1 == "api_key" && p.2 == JPrim.str "secret0"))
      = true) ∧
    isSensitiveKey "api_key" = true ∧
    sanitize [("api_key", JPrim.str "secret0")] = [] := by decide

/-- C2 counterexample: on a first run (no config file) in an interactive
terminal with a failing config write, initialize does not hand the caller a
disabled client — it fails outright with the CONFIG_SAVE_ERROR, because
`load`'s catch block does not cover the `createNew` call made inside it and
`initialize` itself catches nothing around `load`. -/
theorem c2_counterexample :
    (Telemetry.initializeTelemetry envSaveFail "app" none).1 =
      .error (.telemetryError "Failed to save config: EACCES" "CONFIG_SAVE_ERROR") := rfl

/-- C2 amended: if persisting the freshly created consent record fails during
initialize, a CONFIG_SAVE_ERROR TelemetryError is signaled and propagates out
of initialize to its caller; the caller receives no client at all. -/
theorem c2_save_error_propagates (env : Env) (appName : String) (cp : Option String)
    (hr : env.fs.readResult.parses = false) (hi : isInteractive env.proc = true)
    (hw : env.fs.writeOk = false) :
    (Telemetry.initializeTelemetry env appName cp).1 =
      .error (.telemetryError ("Failed to save config: " ++ env.fs.writeErrMsg)
        "CONFIG_SAVE_ERROR") := by
  cases hrr : env.fs.readResult <;> rw [hrr] at hr <;>
    simp [ReadOutcome.parses] at hr <;>
    simp [Telemetry.initializeTelemetry, ConfigManager.load, ConfigManager.createNew,
      hrr, hi, hw]

/-- C2 witness: concrete first-run interactive environment with failing write. -/
theorem c2_witness :
    envSaveFail.fs.readResult.parses = false ∧
    isInteractive envSaveFail.proc = true ∧
    envSaveFail.fs.writeOk = false ∧
    (Telemetry.initializeTelemetry envSaveFail "app" none).1 =
      .error (.telemetryError ("Failed to save config: " ++ envSaveFail.fs.writeErrMsg)
        "CONFIG_SAVE_ERROR") :=
  ⟨rfl, by decide, rfl, c2_save_error_propagates envSaveFail "app" none rfl (by decide) rfl⟩

/-- C3 counterexample: after shutdown of an enabled client, a single trackEvent
call reconnects the analytics connector (the state holds a client again) and
dispatches through it — the post-shutdown state is not terminal. -/
theorem c3_counterexample :
    (Telemetry.trackEvent sampleEnv (Telemetry.shutdown connectedClient).1 "evt" []).2.1.posthog
      = true ∧
    capturedProperties
      (Telemetry.trackEvent sampleEnv (Telemetry.shutdown connectedClient).1 "evt" []).2.2
      ≠ [] := by decide

/-- C3 amended: shutdown releases both connector handles, returning each
connector to the ordinary disconnected state (config untouched), which is not
terminal: on an enabled client a later trackEvent whose reconnection attempt
succeeds holds an analytics client again and dispatches through it. -/
theorem c3_shutdown_not_terminal (t : Telemetry) (env : Env) (name : String)
    (props : JsRecord) (hen : cfgEnabled t.config = true)
    (hctor : env.backend.posthogCtorOk = true) :
    (Telemetry.shutdown t).1.posthog = false ∧
    (Telemetry.shutdown t).1.sentryInitialized = false ∧
    (Telemetry.shutdown t).1.config = t.config ∧
    (Telemetry.trackEvent env (Telemetry.shutdown t).1 name props).2.1.posthog = true ∧
    capturedProperties
      (Telemetry.trackEvent env (Telemetry.shutdown t).1 name props).2.2 ≠ [] := by
  cases hp : t.posthog <;> cases hs : t.sentryInitialized <;>
    cases hcap : env.backend.captureOk <;>
      simp [Telemetry.shutdown, Telemetry.trackEvent, Telemetry.reconnectPostHog,
        hen, hctor, hp, hs, hcap, capturedProperties]

/-- C3 witness: concrete shutdown-then-trackEvent run. -/
theorem c3_witness :
    cfgEnabled connectedClient.config = true ∧
    sampleEnv.backend.posthogCtorOk = true ∧
    ((Telemetry.shutdown connectedClient).1.posthog = false ∧
    (Telemetry.shutdown connectedClient).1.sentryInitialized = false ∧
    (Telemetry.shutdown connectedClient).1.config = connectedClient.config ∧
    (Telemetry.trackEvent sampleEnv (Telemetry.shutdown connectedClient).1 "evt" []).2.1.posthog
      = true ∧
    capturedProperties
      (Telemetry.trackEvent sampleEnv (Telemetry.shutdown connectedClient).1 "evt" []).2.2
      ≠ []) :=
  ⟨by decide, rfl,
    c3_shutdown_not_terminal connectedClient sampleEnv "evt" [] (by decide) rfl⟩
